import Mathlib

/-!
Shallow embedding of the page-object layer and helpers of the DEX Manager
Playwright test framework: the base interaction layer and dialog handlers
of src/pages/BasePage.ts, the upload / selection / view-mode flows of
src/pages/ContentPage.ts, WaitHelper and TestDataHelper of
src/utils/helpers.ts, and the environment validation of
src/config/global-setup.ts and src/config/env.ts.

Driver primitives (element waits, raw actions, attribute reads, checkbox
state) are modelled as pure functions of explicit element/page state; the
sequence of driver calls an operation performs is recorded as a trace of
events, and a thrown exception is an Except error.
-/

namespace DexQA

/-- Default driver timeout in milliseconds for action waits
(actionTimeout: 30000 in playwright.config.ts). -/
def defaultTimeout : Nat := 30000

/-- Errors thrown by the embedded layer: the driver's TimeoutError from a
wait, and the retry-exhaustion error thrown by WaitHelper.waitWithBackoff. -/
inductive Err where
  | timeoutError (ms : Nat)
  | retryExhausted (maxAttempts : Int)
deriving DecidableEq

/-- Driver calls recorded in an operation's trace, in program order. -/
inductive Event where
  | waitVisible (timeout : Nat)
  | clickRaw
  | fillRaw (value : String)
  | hoverRaw
  | selectOptionRaw (value : String)
  | evalCond
  | sleep (ms : Nat)
deriving DecidableEq

/-- A locator's behaviour on the live page: the earliest time in
milliseconds at which the element it resolves to becomes visible, or none
if it never becomes visible. -/
structure Locator where
  visibleAt : Option Nat
deriving DecidableEq

/-- Whether the element becomes visible within the given timeout. -/
def Locator.visibleWithin (l : Locator) (timeout : Nat) : Bool :=
  match l.visibleAt with
  | some t => decide (t ≤ timeout)
  | none => false

/-- Driver primitive used by the base layer: wait until the element is in
state visible, failing with the driver's TimeoutError once the timeout
elapses.  Returns the call trace paired with the outcome. -/
def Locator.waitForVisible (l : Locator) (timeout : Nat) :
    List Event × Except Err Unit :=
  ([Event.waitVisible timeout],
   if l.visibleWithin timeout then Except.ok () else
     Except.error (Err.timeoutError timeout))

/-- BasePage.click: wait for visibility, then click.  A wait failure
propagates and the raw click is never issued. -/
def BasePage.click (l : Locator) : List Event × Except Err Unit :=
  match l.waitForVisible defaultTimeout with
  | (tr, Except.ok _) => (tr ++ [Event.clickRaw], Except.ok ())
  | (tr, Except.error e) => (tr, Except.error e)

/-- BasePage.fill: wait for visibility, then fill the value. -/
def BasePage.fill (l : Locator) (value : String) : List Event × Except Err Unit :=
  match l.waitForVisible defaultTimeout with
  | (tr, Except.ok _) => (tr ++ [Event.fillRaw value], Except.ok ())
  | (tr, Except.error e) => (tr, Except.error e)

/-- BasePage.hover: wait for visibility, then hover. -/
def BasePage.hover (l : Locator) : List Event × Except Err Unit :=
  match l.waitForVisible defaultTimeout with
  | (tr, Except.ok _) => (tr ++ [Event.hoverRaw], Except.ok ())
  | (tr, Except.error e) => (tr, Except.error e)

/-- BasePage.selectOption: wait for visibility, then select the value. -/
def BasePage.selectOption (l : Locator) (value : String) :
    List Event × Except Err Unit :=
  match l.waitForVisible defaultTimeout with
  | (tr, Except.ok _) => (tr ++ [Event.selectOptionRaw value], Except.ok ())
  | (tr, Except.error e) => (tr, Except.error e)

/-- BasePage.isVisible: try waiting for visibility for up to 5000 ms and
return true; any failure of the wait is caught and returned as false. -/
def BasePage.isVisible (l : Locator) : List Event × Except Err Bool :=
  match l.waitForVisible 5000 with
  | (tr, Except.ok _) => (tr, Except.ok true)
  | (tr, Except.error _) => (tr, Except.ok false)

/-- A registered dialog handler's policy. -/
inductive DialogAction where
  | accept
  | dismiss
deriving DecidableEq

/-- The page's registered dialog listeners, in registration order.  The
source registers handlers with page.on('dialog', handler), which appends a
listener to the page's listener list; nothing ever removes or replaces a
previously registered listener. -/
structure PageState where
  dialogHandlers : List DialogAction
deriving DecidableEq

/-- page.on('dialog', handler): append a listener. -/
def pageOnDialog (p : PageState) (h : DialogAction) : PageState :=
  PageState.mk (p.dialogHandlers ++ [h])

/-- BasePage.acceptAlert: register an accepting dialog listener. -/
def BasePage.acceptAlert (p : PageState) : PageState :=
  pageOnDialog p DialogAction.accept

/-- BasePage.dismissAlert: register a dismissing dialog listener. -/
def BasePage.dismissAlert (p : PageState) : PageState :=
  pageOnDialog p DialogAction.dismiss

/-- How a subsequent dialog is settled: listeners run in registration
order, and a dialog can be accepted or dismissed only once (a later
accept/dismiss call on an already-handled dialog fails), so the policy of
the first registered listener takes effect. -/
def settleDialog (p : PageState) : Option DialogAction :=
  p.dialogHandlers.head?

/-- Body of the while (attempt < maxAttempts) loop of
WaitHelper.waitWithBackoff, with the number of remaining loop iterations
(maxAttempts - attempt, clamped at zero) made explicit as structural fuel.
cond k is the result of the k-th evaluation of the asynchronous condition.
On a failed attempt the loop sleeps baseDelay * 2 ^ attempt and retries;
when the attempt bound is reached it throws the exhaustion error. -/
def waitWithBackoffGo (cond : Nat → Bool) (maxAttempts : Int) (baseDelay : Nat) :
    Nat → Nat → List Event × Except Err Unit
  | _, 0 => ([], Except.error (Err.retryExhausted maxAttempts))
  | attempt, fuel + 1 =>
    if cond attempt then ([Event.evalCond], Except.ok ())
    else
      let rest := waitWithBackoffGo cond maxAttempts baseDelay (attempt + 1) fuel
      (Event.evalCond :: Event.sleep (baseDelay * 2 ^ attempt) :: rest.1, rest.2)

/-- WaitHelper.waitWithBackoff (src/utils/helpers.ts), starting at attempt
0; a non-positive maxAttempts admits zero loop iterations. -/
def WaitHelper.waitWithBackoff (cond : Nat → Bool) (maxAttempts : Int)
    (baseDelay : Nat) : List Event × Except Err Unit :=
  waitWithBackoffGo cond maxAttempts baseDelay 0 maxAttempts.toNat

/-- The sleep event immediately preceding the i-th condition evaluation of
a trace, if the directly preceding event is a sleep; the accumulator holds
the delay of the immediately preceding event when that event was a sleep. -/
def delayBeforeAttemptGo : List Event → Nat → Option Nat → Option Nat
  | [], _, _ => none
  | Event.evalCond :: _, 0, prev => prev
  | Event.evalCond :: rest, i + 1, _ => delayBeforeAttemptGo rest i none
  | Event.sleep d :: rest, i, _ => delayBeforeAttemptGo rest i (some d)
  | _ :: rest, i, _ => delayBeforeAttemptGo rest i none

/-- The delay slept directly before the i-th condition evaluation of a
trace (none when that evaluation happens with no preceding sleep). -/
def delayBeforeAttempt (tr : List Event) (i : Nat) : Option Nat :=
  delayBeforeAttemptGo tr i none

/-- Trace of len consecutive failed attempts starting at attempt lo: each
is a condition evaluation followed by its exponential-backoff sleep. -/
def evalSleepSeg (b lo : Nat) : Nat → List Event
  | 0 => []
  | len + 1 =>
    Event.evalCond :: Event.sleep (b * 2 ^ lo) :: evalSleepSeg b (lo + 1) len

/-- Number of condition evaluations recorded in a trace. -/
def countEvals : List Event → Nat
  | [] => 0
  | Event.evalCond :: rest => countEvals rest + 1
  | _ :: rest => countEvals rest

/-- The required environment variables checked by globalSetup and by
validateEnvironment. -/
def requiredEnvVars : List String := ["BASE_URL", "USER_EMAIL", "USER_PASSWORD"]

/-- JS truthiness of process.env.KEY as used by the filter: an unset
variable (undefined) or one set to the empty string is falsy. -/
def envFalsy : Option String → Bool
  | none => true
  | some s => s == ""

/-- required.filter of the keys whose process.env entry is falsy, in both
global-setup.ts and env.ts. -/
def missingRequired (env : String → Option String) : List String :=
  requiredEnvVars.filter (fun k => envFalsy (env k))

/-- The message of the error thrown by globalSetup when required variables
are missing: it lists the missing names joined by a comma. -/
def globalSetupErrorMsg (missing : List String) : String :=
  "Global setup failed — missing required environment variables: " ++
    String.intercalate ", " missing ++
    ".\nCopy .env.example to .env and fill in the values."

/-- The required-environment-variable check at the top of globalSetup
(src/config/global-setup.ts): throw when any required variable is missing,
before anything else runs. -/
def globalSetupValidate (env : String → Option String) : Except String Unit :=
  let missing := missingRequired env
  if missing.length > 0 then Except.error (globalSetupErrorMsg missing)
  else Except.ok ()

/-- validateEnvironment from src/config/env.ts. -/
def validateEnvironment (env : String → Option String) : Except String Unit :=
  let missing := missingRequired env
  if missing.length > 0 then
    Except.error ("Missing required environment variables: " ++
      String.intercalate ", " missing)
  else Except.ok ()

/-- Test-runner contract for global setup (playwright.config.ts registers
globalSetup to run once before the whole suite): a setup failure aborts the
run and no test executes; otherwise every test runs. -/
def runSuite (env : String → Option String) (tests : List String) :
    Except String (List String) :=
  match globalSetupValidate env with
  | Except.error e => Except.error e
  | Except.ok _ => Except.ok tests

/-- JSON values, with numbers restricted to integers, which covers every
numeric field of the test-data schema. -/
inductive Json where
  | null
  | bool (b : Bool)
  | num (n : Int)
  | str (s : String)
  | arr (elems : List Json)
  | obj (fields : List (String × Json))

/-- First binding of a key in a JSON object's field list. -/
def Json.getField : List (String × Json) → String → Option Json
  | [], _ => none
  | (k, v) :: rest, key => if k == key then some v else Json.getField rest key

/-- The key is present and bound to a string. -/
def Json.isStrField (fields : List (String × Json)) (key : String) : Bool :=
  match Json.getField fields key with
  | some (Json.str _) => true
  | _ => false

/-- The key is present and bound to a number. -/
def Json.isNumField (fields : List (String × Json)) (key : String) : Bool :=
  match Json.getField fields key with
  | some (Json.num _) => true
  | _ => false

/-- The key is present and bound to an object, whose fields are returned. -/
def Json.objField (fields : List (String × Json)) (key : String) :
    Option (List (String × Json)) :=
  match Json.getField fields key with
  | some (Json.obj fs) => some fs
  | _ => none

/-- Decidable check that a JSON value matches the ContentData interface of
src/types/testData.ts: folderNames.specialChars and .prefix strings,
urls.invalid string, search.searchTerm string,
performance.largeFileUploadTimeout and .multipleOperationsTimeout numbers,
errorPatterns.duplicate string, viewModes.grid/.list/.card strings. -/
def isContentData (j : Json) : Bool :=
  match j with
  | Json.obj fs =>
    (match Json.objField fs "folderNames" with
     | some g => Json.isStrField g "specialChars" && Json.isStrField g "prefix"
     | none => false) &&
    (match Json.objField fs "urls" with
     | some g => Json.isStrField g "invalid"
     | none => false) &&
    (match Json.objField fs "search" with
     | some g => Json.isStrField g "searchTerm"
     | none => false) &&
    (match Json.objField fs "performance" with
     | some g => Json.isNumField g "largeFileUploadTimeout" &&
         Json.isNumField g "multipleOperationsTimeout"
     | none => false) &&
    (match Json.objField fs "errorPatterns" with
     | some g => Json.isStrField g "duplicate"
     | none => false) &&
    (match Json.objField fs "viewModes" with
     | some g => Json.isStrField g "grid" && Json.isStrField g "list" &&
         Json.isStrField g "card"
     | none => false)
  | _ => false

/-- TestDataHelper.loadTestData (src/utils/helpers.ts): the try-block, a
file read plus JSON.parse, is summarized by its outcome readAndParse.  A
successfully parsed value is returned as-is; an exception is re-thrown
wrapped in the descriptive load message naming the file path. -/
def TestDataHelper.loadTestData (readAndParse : Except String Json)
    (filePath : String) : Except String Json :=
  match readAndParse with
  | Except.ok v => Except.ok v
  | Except.error e =>
    Except.error ("Error al cargar los datos de prueba desde " ++ filePath ++
      ": " ++ e)

/-- A record shaped like src/data/contentData.json, used to exhibit that
the schema checker accepts well-formed data. -/
def sampleContentData : Json :=
  Json.obj
    [("folderNames", Json.obj
        [("specialChars", Json.str "carpeta:invalida"),
         ("prefix", Json.str "CONTENIDO DEX MANAGER")]),
     ("urls", Json.obj [("invalid", Json.str "not-a-url")]),
     ("search", Json.obj [("searchTerm", Json.str "test")]),
     ("performance", Json.obj
        [("largeFileUploadTimeout", Json.num 120000),
         ("multipleOperationsTimeout", Json.num 180000)]),
     ("errorPatterns", Json.obj [("duplicate", Json.str "(1)")]),
     ("viewModes", Json.obj
        [("grid", Json.str "grid"), ("list", Json.str "list"),
         ("card", Json.str "card")])]

/-- Locators of ContentPage used by the embedded flows.  successIndicator n
stands for the selector div:nth-child(n) > .horizontal > .file-status-icon
> .success of the n-th upload row. -/
inductive CLoc where
  | addButton
  | uploadFilesButton
  | uploadSuccess
  | successIndicator (n : Nat)
  | gridViewButton
  | listViewButton
  | cardViewButton
deriving DecidableEq

/-- Base-layer operations a ContentPage flow performs, in program order.
click stands for the base-layer click (itself wait-then-click). -/
inductive CEvent where
  | click (l : CLoc)
  | setInputFiles (files : List String)
  | waitForVisible (l : CLoc)
deriving DecidableEq

/-- ContentPage.uploadMultipleFiles: open the add menu, open the upload
dialog, attach all the file paths at once, then wait for the success
indicators of upload rows 1 and 2 — the two waits are hard-coded and do
not depend on how many files were attached. -/
def ContentPage.uploadMultipleFiles (filePaths : List String) : List CEvent :=
  [CEvent.click CLoc.addButton,
   CEvent.click CLoc.uploadFilesButton,
   CEvent.setInputFiles filePaths,
   CEvent.waitForVisible (CLoc.successIndicator 1),
   CEvent.waitForVisible (CLoc.successIndicator 2)]

/-- ContentPage.uploadByDragAndDrop: attach the file paths, then wait for
the success indicators of upload rows 1 and 2 (also hard-coded). -/
def ContentPage.uploadByDragAndDrop (filePaths : List String) : List CEvent :=
  [CEvent.setInputFiles filePaths,
   CEvent.waitForVisible (CLoc.successIndicator 1),
   CEvent.waitForVisible (CLoc.successIndicator 2)]

/-- Is this event a wait on some upload row's success indicator? -/
def isSuccessWait : CEvent → Bool
  | CEvent.waitForVisible (CLoc.successIndicator _) => true
  | _ => false

/-- The return type of getActiveViewMode:
'grid' | 'list' | 'card' | 'unknown'. -/
inductive ViewMode where
  | grid
  | list
  | card
  | unknown
deriving DecidableEq

/-- The options array of getActiveViewMode, in the source's order. -/
def viewOptions : List (CLoc × ViewMode) :=
  [(CLoc.gridViewButton, ViewMode.grid),
   (CLoc.listViewButton, ViewMode.list),
   (CLoc.cardViewButton, ViewMode.card)]

/-- The for-loop of getActiveViewMode: return the value of the first option
whose aria-selected attribute reads the string "true". -/
def scanViewOptions (ariaSelected : CLoc → Option String) :
    List (CLoc × ViewMode) → ViewMode
  | [] => ViewMode.unknown
  | (l, v) :: rest =>
    if ariaSelected l = some "true" then v else scanViewOptions ariaSelected rest

/-- ContentPage.getActiveViewMode over the page's aria-selected attribute
per locator (none models a null attribute: the element lacks it). -/
def ContentPage.getActiveViewMode (ariaSelected : CLoc → Option String) :
    ViewMode :=
  scanViewOptions ariaSelected viewOptions

/-- The indexed for-loop of areAllItemsChecked: false as soon as one
checkbox reports unchecked, true past the end. -/
def allCheckedLoop : List Bool → Bool
  | [] => true
  | checked :: rest => if !checked then false else allCheckedLoop rest

/-- ContentPage.areAllItemsChecked over the checked states of the
media-card checkboxes currently on the page: zero checkboxes yield false,
otherwise the loop over every checkbox runs. -/
def ContentPage.areAllItemsChecked (checkboxes : List Bool) : Bool :=
  if checkboxes.length = 0 then false else allCheckedLoop checkboxes

end DexQA

namespace DexQA

/-- C1: for every locator, each of click, fill, hover and selectOption first
performs an explicit wait for visibility and only then performs the raw
action; when the element does not become visible within the timeout the
operation fails with that very timeout error, the raw action is never
issued, and there is no retry (the trace holds a single wait). -/
theorem base_actions_explicit_wait (l : Locator) (v : String) :
    (l.visibleWithin defaultTimeout = true →
      BasePage.click l =
          ([Event.waitVisible defaultTimeout, Event.clickRaw], Except.ok ()) ∧
      BasePage.fill l v =
          ([Event.waitVisible defaultTimeout, Event.fillRaw v], Except.ok ()) ∧
      BasePage.hover l =
          ([Event.waitVisible defaultTimeout, Event.hoverRaw], Except.ok ()) ∧
      BasePage.selectOption l v =
          ([Event.waitVisible defaultTimeout, Event.selectOptionRaw v],
           Except.ok ())) ∧
    (l.visibleWithin defaultTimeout = false →
      BasePage.click l =
          ([Event.waitVisible defaultTimeout],
           Except.error (Err.timeoutError defaultTimeout)) ∧
      BasePage.fill l v =
          ([Event.waitVisible defaultTimeout],
           Except.error (Err.timeoutError defaultTimeout)) ∧
      BasePage.hover l =
          ([Event.waitVisible defaultTimeout],
           Except.error (Err.timeoutError defaultTimeout)) ∧
      BasePage.selectOption l v =
          ([Event.waitVisible defaultTimeout],
           Except.error (Err.timeoutError defaultTimeout))) := by
  constructor <;> intro h <;>
    simp [BasePage.click, BasePage.fill, BasePage.hover, BasePage.selectOption,
      Locator.waitForVisible, h]

/-- Witness for C1: a locator visible immediately is waited for and then
clicked; a locator that never becomes visible yields the propagated
timeout error with no raw click in the trace. -/
theorem base_actions_explicit_wait_witness :
    BasePage.click (Locator.mk (some 0)) =
        ([Event.waitVisible defaultTimeout, Event.clickRaw], Except.ok ()) ∧
    BasePage.click (Locator.mk none) =
        ([Event.waitVisible defaultTimeout],
         Except.error (Err.timeoutError defaultTimeout)) :=
  ⟨((base_actions_explicit_wait (Locator.mk (some 0)) "x").1 (by decide)).1,
   ((base_actions_explicit_wait (Locator.mk none) "x").2 (by decide)).1⟩

/-- C7: isVisible never throws; it waits up to 5000 ms for visibility and
returns true exactly when the element becomes visible within that window,
turning any wait failure into the boolean result false. -/
theorem isVisible_never_throws (l : Locator) :
    BasePage.isVisible l =
        ([Event.waitVisible 5000], Except.ok (l.visibleWithin 5000)) ∧
    ∀ e : Err, (BasePage.isVisible l).2 ≠ Except.error e := by
  cases h : l.visibleWithin 5000 <;>
    simp [BasePage.isVisible, Locator.waitForVisible, h]

/-- C3 is false as stated: registering an accept handler and then a dismiss
handler does not overwrite a single mutable field — both listeners remain
registered, and the subsequent dialog is settled by the first-registered
(accept) handler, not the last-registered (dismiss) one. -/
theorem dialog_policy_counterexample :
    (BasePage.dismissAlert (BasePage.acceptAlert (PageState.mk []))).dialogHandlers =
        [DialogAction.accept, DialogAction.dismiss] ∧
    settleDialog (BasePage.dismissAlert (BasePage.acceptAlert (PageState.mk []))) =
        some DialogAction.accept ∧
    settleDialog (BasePage.dismissAlert (BasePage.acceptAlert (PageState.mk []))) ≠
        some DialogAction.dismiss := by
  decide

/-- C3 (amended): acceptAlert and dismissAlert append listeners which all
persist for the life of the page; on a page with no prior handler,
registering two policies leaves both registered and each subsequent dialog
is settled by the first-registered handler (first-write-wins), in either
registration order. -/
theorem dialog_policy_first_wins (p : PageState) (h : p.dialogHandlers = []) :
    (BasePage.dismissAlert (BasePage.acceptAlert p)).dialogHandlers =
        [DialogAction.accept, DialogAction.dismiss] ∧
    settleDialog (BasePage.dismissAlert (BasePage.acceptAlert p)) =
        some DialogAction.accept ∧
    (BasePage.acceptAlert (BasePage.dismissAlert p)).dialogHandlers =
        [DialogAction.dismiss, DialogAction.accept] ∧
    settleDialog (BasePage.acceptAlert (BasePage.dismissAlert p)) =
        some DialogAction.dismiss := by
  simp [BasePage.acceptAlert, BasePage.dismissAlert, pageOnDialog,
    settleDialog, h]

/-- Witness for C3 (amended) on the fresh page. -/
theorem dialog_policy_first_wins_witness :
    settleDialog (BasePage.dismissAlert (BasePage.acceptAlert (PageState.mk []))) =
        some DialogAction.accept ∧
    settleDialog (BasePage.acceptAlert (BasePage.dismissAlert (PageState.mk []))) =
        some DialogAction.dismiss :=
  ⟨(dialog_policy_first_wins (PageState.mk []) rfl).2.1,
   (dialog_policy_first_wins (PageState.mk []) rfl).2.2.2⟩

/-- Loop characterization on success: if the first true evaluation from
attempt onward is at offset k within the remaining fuel, the loop performs
the k failed eval/sleep pairs and returns right after the successful
evaluation. -/
theorem waitWithBackoffGo_success (cond : Nat → Bool) (m : Int) (b : Nat) :
    ∀ k fuel attempt, k < fuel →
      (∀ j, j < k → cond (attempt + j) = false) →
      cond (attempt + k) = true →
      waitWithBackoffGo cond m b attempt fuel =
        (evalSleepSeg b attempt k ++ [Event.evalCond], Except.ok ()) := by
  intro k
  induction k with
  | zero =>
    intro fuel attempt hk _ hc
    cases fuel with
    | zero => omega
    | succ f =>
      have hc0 : cond attempt = true := by simpa using hc
      simp [waitWithBackoffGo, hc0, evalSleepSeg]
  | succ k ih =>
    intro fuel attempt hk hfail hc
    cases fuel with
    | zero => omega
    | succ f =>
      have h0 : cond attempt = false := by simpa using hfail 0 (by omega)
      have hrest := ih f (attempt + 1) (by omega)
        (fun j hj => by
          rw [show attempt + 1 + j = attempt + (j + 1) by omega]
          exact hfail (j + 1) (by omega))
        (by rw [show attempt + 1 + k = attempt + (k + 1) by omega]; exact hc)
      simp [waitWithBackoffGo, h0, hrest, evalSleepSeg]

/-- Loop characterization on exhaustion: if every remaining evaluation is
false, the loop performs exactly the remaining eval/sleep pairs and then
throws the exhaustion error. -/
theorem waitWithBackoffGo_exhaust (cond : Nat → Bool) (m : Int) (b : Nat) :
    ∀ fuel attempt, (∀ j, j < fuel → cond (attempt + j) = false) →
      waitWithBackoffGo cond m b attempt fuel =
        (evalSleepSeg b attempt fuel, Except.error (Err.retryExhausted m)) := by
  intro fuel
  induction fuel with
  | zero => intro attempt _; simp [waitWithBackoffGo, evalSleepSeg]
  | succ f ih =>
    intro attempt hfail
    have h0 : cond attempt = false := by simpa using hfail 0 (by omega)
    have hrest := ih (attempt + 1) (fun j hj => by
      rw [show attempt + 1 + j = attempt + (j + 1) by omega]
      exact hfail (j + 1) (by omega))
    simp [waitWithBackoffGo, h0, hrest, evalSleepSeg]

/-- The loop evaluates the condition at most as many times as it has fuel. -/
theorem countEvals_waitWithBackoffGo_le (cond : Nat → Bool) (m : Int) (b : Nat) :
    ∀ fuel attempt, countEvals (waitWithBackoffGo cond m b attempt fuel).1 ≤ fuel := by
  intro fuel
  induction fuel with
  | zero => intro attempt; simp [waitWithBackoffGo, countEvals]
  | succ f ih =>
    intro attempt
    by_cases h : cond attempt = true
    · simp [waitWithBackoffGo, h, countEvals]
    · have h' : cond attempt = false := by simpa using h
      have := ih (attempt + 1)
      simp [waitWithBackoffGo, h', countEvals]
      omega

/-- C2 (amended): waitWithBackoff evaluates the condition repeatedly and
returns as soon as it yields true; the first attempt is made immediately,
and after failed attempt i (0-indexed) it sleeps baseDelay * 2 ^ i before
the next attempt — so baseDelay * 2 ^ i is the delay before attempt i + 1,
not before attempt i.  When the first success is attempt k, the trace is
the k failed eval/sleep pairs followed by the successful evaluation.  When
all maxAttempts attempts fail, the loop sleeps once more after the last
attempt and then throws the retry-exhausted error, with no further
attempts. -/
theorem waitWithBackoff_spec (cond : Nat → Bool) (m : Int) (b : Nat) :
    (∀ k : Nat, (k : Int) < m → (∀ j, j < k → cond j = false) → cond k = true →
      WaitHelper.waitWithBackoff cond m b =
        (evalSleepSeg b 0 k ++ [Event.evalCond], Except.ok ())) ∧
    ((∀ k : Nat, (k : Int) < m → cond k = false) →
      WaitHelper.waitWithBackoff cond m b =
        (evalSleepSeg b 0 m.toNat, Except.error (Err.retryExhausted m))) := by
  constructor
  · intro k hkm hfail hc
    have hk : k < m.toNat := by omega
    have h := waitWithBackoffGo_success cond m b k m.toNat 0 hk
      (fun j hj => by simpa using hfail j hj) (by simpa using hc)
    simpa [WaitHelper.waitWithBackoff] using h
  · intro hall
    have h := waitWithBackoffGo_exhaust cond m b m.toNat 0 (fun j hj => by
      have hjm : (j : Int) < m := by omega
      simpa using hall j hjm)
    simpa [WaitHelper.waitWithBackoff] using h

/-- Witness for C2 (amended): a condition first true at attempt 1 stops
after one backoff sleep of the base delay; a never-true condition with two
attempts exhausts with delays base * 1 and base * 2. -/
theorem waitWithBackoff_spec_witness :
    WaitHelper.waitWithBackoff (fun k => k == 1) 3 1000 =
        ([Event.evalCond, Event.sleep 1000, Event.evalCond], Except.ok ()) ∧
    WaitHelper.waitWithBackoff (fun _ => false) 2 500 =
        ([Event.evalCond, Event.sleep 500, Event.evalCond, Event.sleep 1000],
         Except.error (Err.retryExhausted 2)) := by
  constructor
  · have h := (waitWithBackoff_spec (fun k => k == 1) 3 1000).1 1 (by decide)
      (fun j hj => by
        have hj0 : j = 0 := by omega
        subst hj0
        rfl) (by decide)
    simpa [evalSleepSeg] using h
  · have h := (waitWithBackoff_spec (fun _ => false) 2 500).2 (fun k _ => rfl)
    simpa [evalSleepSeg] using h

/-- C2 is false as stated: with a never-true condition, two attempts and
base delay 1000, the trace is eval, sleep 1000, eval, sleep 2000.  No sleep
at all precedes attempt 0 (the stated claim demands one of
1000 * 2 ^ 0), and the sleep preceding attempt 1 is 1000 = 1000 * 2 ^ 0,
not 1000 * 2 ^ 1. -/
theorem waitWithBackoff_delay_counterexample :
    (WaitHelper.waitWithBackoff (fun _ => false) 2 1000).1 =
        [Event.evalCond, Event.sleep 1000, Event.evalCond, Event.sleep 2000] ∧
    delayBeforeAttempt (WaitHelper.waitWithBackoff (fun _ => false) 2 1000).1 0 ≠
        some (1000 * 2 ^ 0) ∧
    delayBeforeAttempt (WaitHelper.waitWithBackoff (fun _ => false) 2 1000).1 1 =
        some (1000 * 2 ^ 0) ∧
    delayBeforeAttempt (WaitHelper.waitWithBackoff (fun _ => false) 2 1000).1 1 ≠
        some (1000 * 2 ^ 1) := by
  decide

/-- C10: waitWithBackoff evaluates its condition at most maxAttempts times,
and for a non-positive maxAttempts it throws the exhaustion error
immediately, with no condition evaluation and no sleep at all. -/
theorem waitWithBackoff_attempt_bound (cond : Nat → Bool) (m : Int) (b : Nat) :
    countEvals (WaitHelper.waitWithBackoff cond m b).1 ≤ m.toNat ∧
    (m ≤ 0 →
      WaitHelper.waitWithBackoff cond m b =
        ([], Except.error (Err.retryExhausted m))) := by
  constructor
  · exact countEvals_waitWithBackoffGo_le cond m b m.toNat 0
  · intro hm
    have h0 : m.toNat = 0 := by omega
    simp [WaitHelper.waitWithBackoff, h0, waitWithBackoffGo]

/-- Witness for C10: maxAttempts = 0 throws at once, without evaluating the
always-true condition even once. -/
theorem waitWithBackoff_attempt_bound_witness :
    WaitHelper.waitWithBackoff (fun _ => true) 0 1000 =
        ([], Except.error (Err.retryExhausted 0)) :=
  (waitWithBackoff_attempt_bound (fun _ => true) 0 1000).2 (by decide)

/-- C4: when any required environment variable is missing, global setup
fails with the descriptive error naming exactly the missing variables, the
missing list is exactly the falsy required keys, and the suite runs no
test at all. -/
theorem missing_env_aborts (env : String → Option String)
    (h : ∃ k ∈ requiredEnvVars, envFalsy (env k) = true) :
    missingRequired env ≠ [] ∧
    globalSetupValidate env =
        Except.error (globalSetupErrorMsg (missingRequired env)) ∧
    (∀ k, k ∈ missingRequired env ↔
        k ∈ requiredEnvVars ∧ envFalsy (env k) = true) ∧
    (∀ tests, runSuite env tests =
        Except.error (globalSetupErrorMsg (missingRequired env))) := by
  obtain ⟨k, hk, hfalsy⟩ := h
  have hmem : k ∈ missingRequired env := by
    simp [missingRequired, List.mem_filter, hk, hfalsy]
  have hne : missingRequired env ≠ [] := List.ne_nil_of_mem hmem
  have hlen : 0 < (missingRequired env).length := List.length_pos.mpr hne
  have hval : globalSetupValidate env =
      Except.error (globalSetupErrorMsg (missingRequired env)) := by
    simp [globalSetupValidate, hlen]
  refine ⟨hne, hval, ?_, ?_⟩
  · intro k2
    simp [missingRequired, List.mem_filter]
  · intro tests
    simp [runSuite, hval]

/-- Witness for C4: with every variable unset, setup fails with the message
listing all three required names, and the suite runs nothing. -/
theorem missing_env_aborts_witness :
    missingRequired (fun _ => none) =
        ["BASE_URL", "USER_EMAIL", "USER_PASSWORD"] ∧
    globalSetupValidate (fun _ => none) =
        Except.error (globalSetupErrorMsg (missingRequired (fun _ => none))) ∧
    runSuite (fun _ => none) ["TC-01-01"] =
        Except.error (globalSetupErrorMsg (missingRequired (fun _ => none))) :=
  ⟨rfl,
   (missing_env_aborts (fun _ => none)
      ⟨"BASE_URL", List.mem_cons_self _ _, rfl⟩).2.1,
   (missing_env_aborts (fun _ => none)
      ⟨"BASE_URL", List.mem_cons_self _ _, rfl⟩).2.2.2 ["TC-01-01"]⟩

/-- C5 is false as stated: loadTestData performs no schema validation at
all — a successfully parsed JSON value that does not match the ContentData
shape (here the empty object) is returned as a normal result instead of
failing at load time. -/
theorem loadTestData_no_schema_validation :
    ¬ (∀ (r : Except String Json) (path : String) (j : Json),
        TestDataHelper.loadTestData r path = Except.ok j →
          isContentData j = true) := by
  intro hclaim
  have h := hclaim (Except.ok (Json.obj [])) "src/data/contentData.json"
    (Json.obj []) rfl
  exact absurd h (by decide)

/-- C5 (amended): loading fails fast with the descriptive error naming the
file path exactly when the file read or the JSON parse fails; a
successfully parsed record is returned unchanged without any runtime
schema validation, so a shape mismatch surfaces only later at use time. -/
theorem loadTestData_spec (r : Except String Json) (path : String) :
    (∀ j, r = Except.ok j →
      TestDataHelper.loadTestData r path = Except.ok j) ∧
    (∀ e, r = Except.error e →
      TestDataHelper.loadTestData r path =
        Except.error ("Error al cargar los datos de prueba desde " ++ path ++
          ": " ++ e)) := by
  constructor <;> intro x hx <;> subst hx <;> rfl

/-- Witness for C5 (amended): a malformed parsed record is returned as-is,
and a read failure is wrapped in the descriptive load error. -/
theorem loadTestData_spec_witness :
    TestDataHelper.loadTestData (Except.ok (Json.obj []))
        "src/data/contentData.json" = Except.ok (Json.obj []) ∧
    TestDataHelper.loadTestData (Except.error "ENOENT")
        "src/data/contentData.json" =
      Except.error
        ("Error al cargar los datos de prueba desde src/data/contentData.json: ENOENT") := by
  refine ⟨(loadTestData_spec (Except.ok (Json.obj []))
      "src/data/contentData.json").1 (Json.obj []) rfl, ?_⟩
  have h := (loadTestData_spec (Except.error "ENOENT")
      "src/data/contentData.json").2 "ENOENT" rfl
  simpa using h

/-- The schema checker accepts a well-formed ContentData record, so the
refutation of C5 is not an artifact of a vacuous checker. -/
theorem sampleContentData_valid : isContentData sampleContentData = true := by
  decide

/-- C6 is false as stated: uploading three files performs no wait at all
for the third file's success indicator. -/
theorem uploadMultipleFiles_counterexample :
    ¬ (∀ files : List String, 1 ≤ files.length →
        ∀ i < files.length,
          CEvent.waitForVisible (CLoc.successIndicator (i + 1)) ∈
            ContentPage.uploadMultipleFiles files) := by
  intro hclaim
  have h := hclaim ["a", "b", "c"] (by decide) 2 (by decide)
  exact absurd h (by decide)

/-- C6 (amended): uploadMultipleFiles (and uploadByDragAndDrop) always wait
for exactly the success indicators of upload rows 1 and 2, regardless of
how many files were attached; only for exactly two files does this equal
waiting for each file's own indicator. -/
theorem uploadMultipleFiles_waits_first_two (files : List String) :
    (ContentPage.uploadMultipleFiles files).filter isSuccessWait =
        [CEvent.waitForVisible (CLoc.successIndicator 1),
         CEvent.waitForVisible (CLoc.successIndicator 2)] ∧
    (files.length = 2 →
      ∀ i < files.length,
        CEvent.waitForVisible (CLoc.successIndicator (i + 1)) ∈
          ContentPage.uploadMultipleFiles files) ∧
    (ContentPage.uploadByDragAndDrop files).filter isSuccessWait =
        [CEvent.waitForVisible (CLoc.successIndicator 1),
         CEvent.waitForVisible (CLoc.successIndicator 2)] := by
  refine ⟨?_, ?_, ?_⟩
  · simp [ContentPage.uploadMultipleFiles, isSuccessWait, List.filter]
  · intro h2 i hi
    rw [h2] at hi
    have hi01 : i = 0 ∨ i = 1 := by omega
    rcases hi01 with h | h <;> subst h <;>
      simp [ContentPage.uploadMultipleFiles]
  · simp [ContentPage.uploadByDragAndDrop, isSuccessWait, List.filter]

/-- Witness for C6 (amended): with exactly two files, both files' own
success indicators are awaited. -/
theorem uploadMultipleFiles_waits_first_two_witness :
    (ContentPage.uploadMultipleFiles ["a", "b"]).filter isSuccessWait =
        [CEvent.waitForVisible (CLoc.successIndicator 1),
         CEvent.waitForVisible (CLoc.successIndicator 2)] ∧
    CEvent.waitForVisible (CLoc.successIndicator 1) ∈
        ContentPage.uploadMultipleFiles ["a", "b"] ∧
    CEvent.waitForVisible (CLoc.successIndicator 2) ∈
        ContentPage.uploadMultipleFiles ["a", "b"] :=
  ⟨(uploadMultipleFiles_waits_first_two ["a", "b"]).1,
   (uploadMultipleFiles_waits_first_two ["a", "b"]).2.1 rfl 0 (by decide),
   (uploadMultipleFiles_waits_first_two ["a", "b"]).2.1 rfl 1 (by decide)⟩

/-- C8: getActiveViewMode scans grid, list, card in order, returns the
first whose aria-selected attribute is the string "true", and returns the
sentinel unknown when none matches; being a total function of the read
attributes, it throws nothing. -/
theorem getActiveViewMode_scan (ariaSelected : CLoc → Option String) :
    (ariaSelected CLoc.gridViewButton = some "true" →
      ContentPage.getActiveViewMode ariaSelected = ViewMode.grid) ∧
    (ariaSelected CLoc.gridViewButton ≠ some "true" →
      ariaSelected CLoc.listViewButton = some "true" →
      ContentPage.getActiveViewMode ariaSelected = ViewMode.list) ∧
    (ariaSelected CLoc.gridViewButton ≠ some "true" →
      ariaSelected CLoc.listViewButton ≠ some "true" →
      ariaSelected CLoc.cardViewButton = some "true" →
      ContentPage.getActiveViewMode ariaSelected = ViewMode.card) ∧
    (ariaSelected CLoc.gridViewButton ≠ some "true" →
      ariaSelected CLoc.listViewButton ≠ some "true" →
      ariaSelected CLoc.cardViewButton ≠ some "true" →
      ContentPage.getActiveViewMode ariaSelected = ViewMode.unknown) := by
  refine ⟨?_, ?_, ?_, ?_⟩ <;> intros <;>
    simp_all [ContentPage.getActiveViewMode, viewOptions, scanViewOptions]

/-- Witness for C8: each single-selected page yields its mode, and a page
with no selected option yields unknown. -/
theorem getActiveViewMode_scan_witness :
    ContentPage.getActiveViewMode
        (fun l => if l = CLoc.gridViewButton then some "true" else none) =
      ViewMode.grid ∧
    ContentPage.getActiveViewMode
        (fun l => if l = CLoc.listViewButton then some "true" else none) =
      ViewMode.list ∧
    ContentPage.getActiveViewMode
        (fun l => if l = CLoc.cardViewButton then some "true" else none) =
      ViewMode.card ∧
    ContentPage.getActiveViewMode (fun _ => none) = ViewMode.unknown :=
  ⟨(getActiveViewMode_scan _).1 (by decide),
   (getActiveViewMode_scan _).2.1 (by decide) (by decide),
   (getActiveViewMode_scan _).2.2.1 (by decide) (by decide) (by decide),
   (getActiveViewMode_scan _).2.2.2 (by decide) (by decide) (by decide)⟩

/-- The loop of areAllItemsChecked is the conjunction of its inputs. -/
theorem allCheckedLoop_eq_all (cbs : List Bool) :
    allCheckedLoop cbs = true ↔ ∀ b ∈ cbs, b = true := by
  induction cbs with
  | nil => simp [allCheckedLoop]
  | cons b rest ih => cases b <;> simp [allCheckedLoop, ih]

/-- C9: areAllItemsChecked returns true exactly when there is at least one
item checkbox and every item checkbox reports checked; the empty item set
yields false. -/
theorem areAllItemsChecked_spec (checkboxes : List Bool) :
    (ContentPage.areAllItemsChecked checkboxes = true ↔
      checkboxes ≠ [] ∧ ∀ b ∈ checkboxes, b = true) ∧
    ContentPage.areAllItemsChecked [] = false := by
  refine ⟨?_, rfl⟩
  cases checkboxes with
  | nil => simp [ContentPage.areAllItemsChecked]
  | cons b rest =>
    simp [ContentPage.areAllItemsChecked, allCheckedLoop_eq_all]

end DexQA
